import Mathlib

/-!
Verification of the patient-condition prediction app (applied_app.py).

The script is embedded shallowly:
* vital readings are rationals (the temperature slider uses fractional steps);
* condition labels are the strings "Normal" and "At Risk", exactly as in the
  source;
* timestamps are measured in whole hours, so the hourly timeline produced by
  pd.date_range(start=today, periods=24, freq="H") becomes a list of 24
  consecutive hour numbers starting at the midnight hour of the current date;
* the external ARIMA model is modelled at its interface only (an opaque-free
  structure holding a point-forecast function), and the absence of any
  try/except around model.fit() in the source is modelled by propagating an
  Except.error past the report block;
* the Excel report is modelled as a record of its observable content (sheets,
  embedded chart images with anchors, text cells, file name) plus an event
  trace recording the order of the assembly steps in lines 105-140.
-/

/-- Lines 10-14 of applied_app.py: the threshold classifier.  Returns the
string "Normal" when all five vitals lie in their inclusive ranges, and
"At Risk" otherwise. -/
def classify_patient_condition (systolic diastolic pulse temp spo2 : ℚ) : String :=
  if 90 ≤ systolic ∧ systolic ≤ 120 ∧ 60 ≤ diastolic ∧ diastolic ≤ 80 ∧
      60 ≤ pulse ∧ pulse ≤ 100 ∧ (36.5 : ℚ) ≤ temp ∧ temp ≤ (37.5 : ℚ) ∧
      95 ≤ spo2 ∧ spo2 ≤ 100 then
    "Normal"
  else
    "At Risk"

/-- Lines 16-21: the advice lookup.  The two adjacent Python string literals
in the else branch concatenate into one string. -/
def disease_recommendation (condition : String) : String :=
  if condition = "Normal" then
    "No immediate diseases suggested based on normal readings."
  else
    "Possibilities include hypertension, heart disease, respiratory issues, or other conditions requiring further medical assessment."

/-- A point of the synthetic timeline: a timestamp (in hours) and a condition
label, one row of the plot_data DataFrame of lines 61-64. -/
structure TimelinePoint where
  time : Nat
  condition : String
deriving DecidableEq

/-- Line 53: pd.date_range(start, periods=24, freq="H") - 24 consecutive
hourly timestamps beginning at the start instant (hours unit). -/
def time_data (start : Nat) : List Nat :=
  (List.range 24).map (fun i => start + i)

/-- Lines 56-59: the fixed 18/6 label split keyed off the predicted
condition. -/
def condition_data (predicted : String) : List String :=
  if predicted = "Normal" then
    List.replicate 18 "Normal" ++ List.replicate 6 "At Risk"
  else
    List.replicate 18 "At Risk" ++ List.replicate 6 "Normal"

/-- Lines 61-64: plot_data pairs the Time column with the Condition column
row by row. -/
def plot_data (predicted : String) (start : Nat) : List TimelinePoint :=
  List.zipWith (fun t c => ⟨t, c⟩) (time_data start) (condition_data predicted)

/-- Line 97 (and the lambda of line 82): the derived binary column,
1 for "At Risk" and 0 for "Normal". -/
def conditionBinary (pd : List TimelinePoint) : List Nat :=
  pd.map (fun p => if p.condition = "At Risk" then 1 else 0)

/-- Helper: counts the rows of plot_data carrying a given label. -/
def countLabel (pd : List TimelinePoint) (l : String) : Nat :=
  (pd.filter (fun p => p.condition = l)).length

/-- Model of pandas value_counts on the Condition column (lines 69 and 108):
the two labels with their frequencies, most frequent first. -/
def value_counts (pd : List TimelinePoint) : List (String × Nat) :=
  let n := countLabel pd "Normal"
  let a := countLabel pd "At Risk"
  if n ≥ a then [("Normal", n), ("At Risk", a)] else [("At Risk", a), ("Normal", n)]

/-- Model of groupby("Condition").size() of line 76: counts keyed in
ascending label order ("At Risk" sorts before "Normal"). -/
def groupbySize (pd : List TimelinePoint) : List (String × Nat) :=
  [("At Risk", countLabel pd "At Risk"), ("Normal", countLabel pd "Normal")]

/-- The content of a rendered matplotlib figure, at the level the report
cares about. -/
inductive ChartFig
  | pie (counts : List (String × Nat))
  | bar (counts : List (String × Nat))
  | line (series : List Nat)
deriving DecidableEq

/-- Lines 67-72: the pie chart of the label frequencies. -/
def plot_condition_distribution (pd : List TimelinePoint) : ChartFig :=
  ChartFig.pie (value_counts pd)

/-- Lines 74-78: the bar chart of the per-label counts. -/
def plot_hourly_condition_counts (pd : List TimelinePoint) : ChartFig :=
  ChartFig.bar (groupbySize pd)

/-- Lines 80-84: the binary risk line chart. -/
def plot_time_series (pd : List TimelinePoint) : ChartFig :=
  ChartFig.line (conditionBinary pd)

/-- The payload written to one sheet of the report. -/
inductive TableData
  | inputRow (systolic diastolic pulse temperature spo2 : ℚ)
  | timeSeries (rows : List (Nat × String × Nat))
  | counts (rows : List (String × Nat))
deriving DecidableEq

/-- The observable content of the generated spreadsheet artifact: named
sheets, embedded images (anchor cell, image title, figure), free-text cells
and the download file name. -/
structure Report where
  sheets : List (String × TableData)
  images : List (String × String × ChartFig)
  textCells : List (String × String)
  fileName : String
deriving DecidableEq

/-- Lines 104-140: the report assembly.  The futurePred argument is the
ARIMA forecast of line 100, in scope during the report block; the block
never reads it. -/
def buildReport (systolic diastolic pulse temperature spo2 : ℚ)
    (pd : List TimelinePoint) (suggestion : String)
    (futurePred : List ℚ) : Report :=
  { sheets := [
      ("Patient Input Data", TableData.inputRow systolic diastolic pulse temperature spo2),
      ("Time Series Data", TableData.timeSeries
        (pd.map (fun p => (p.time, p.condition, if p.condition = "At Risk" then 1 else 0)))),
      ("Condition Distribution", TableData.counts (value_counts pd))],
    images := [
      ("G2", "Pie Chart", plot_condition_distribution pd),
      ("G20", "Bar Graph", plot_hourly_condition_counts pd),
      ("G40", "Time Series", plot_time_series pd)],
    textCells := [("B2", "Disease Suggestion: " ++ suggestion)],
    fileName := "patient_condition_report_with_charts.xlsx" }

/-- Modelled from the spec: the fitted ARIMA model is an external library
object (statsmodels); only its interface matters here - it produces one
point forecast per future step. -/
structure ARIMAFit where
  predict : Nat → ℚ

/-- Modelled from the spec: model_fit.forecast(steps) of line 100 produces
one point forecast per future step, positionally. -/
def forecastFn (m : ARIMAFit) (steps : Nat) : List ℚ :=
  (List.range steps).map m.predict

/-- Lines 98-140 of the script after chart display: model.fit() may raise; the
source wraps it in no try/except, so a raised fitting error propagates and the
report block is never reached.  A successful fit binds future_pred and falls
through to the report assembly. -/
def scriptTail (systolic diastolic pulse temperature spo2 : ℚ)
    (pd : List TimelinePoint) (suggestion : String)
    (fitResult : Except String ARIMAFit) : Except String Report :=
  match fitResult with
  | Except.error e => Except.error e
  | Except.ok m =>
      Except.ok (buildReport systolic diastolic pulse temperature spo2 pd suggestion
        (forecastFn m 24))

/-- An instant of datetime.now(): a calendar date (day number) and the
seconds elapsed since that day's midnight. -/
structure Instant where
  date : Nat
  secOfDay : Nat
deriving DecidableEq

/-- Lines 37-97: the pipeline up to (and excluding) forecasting.  Line 52
takes datetime.now().date(), so the timeline starts at the midnight hour of
the current date (date * 24 in the hours unit), independent of the time of
day. -/
def runPipeline (systolic diastolic pulse temperature spo2 : ℚ)
    (now : Instant) : String × String × List TimelinePoint × List Nat :=
  let predicted := classify_patient_condition systolic diastolic pulse temperature spo2
  let suggestion := disease_recommendation predicted
  let today := now.date
  let pd := plot_data predicted (today * 24)
  (predicted, suggestion, pd, conditionBinary pd)

/-- One step of the report assembly of lines 105-140, in program order. -/
inductive Ev
  | writeTable (sheet : String)
  | insertImage (sheet anchor : String)
  | writeCell (sheet cell : String)
  | closeWriter
  | seekStart
  | download
deriving DecidableEq

/-- The assembly steps of lines 105-140 in the order the source executes
them: the three table writes, the three image insertions, the text cell,
the ExcelWriter close (flush) on leaving the with-block, the seek(0) of
line 139 and the download handoff of line 140. -/
def assemblyTrace : List Ev := [
  Ev.writeTable "Patient Input Data",
  Ev.writeTable "Time Series Data",
  Ev.writeTable "Condition Distribution",
  Ev.insertImage "Condition Distribution" "G2",
  Ev.insertImage "Condition Distribution" "G20",
  Ev.insertImage "Condition Distribution" "G40",
  Ev.writeCell "Condition Distribution" "B2",
  Ev.closeWriter,
  Ev.seekStart,
  Ev.download]

/-- Recognizes an image insertion into the given sheet. -/
def isInsertImageInto (sheet : String) : Ev → Bool
  | Ev.insertImage s _ => s = sheet
  | _ => false

/-- C1: classify_patient_condition returns "Normal" iff all five vitals lie
in their inclusive ranges (systolic 90-120, diastolic 60-80, pulse 60-100,
temperature 36.5-37.5, spo2 95-100) and "At Risk" otherwise; it is total on
all rational inputs, a reading with every value at a boundary is "Normal",
and moving a single value one unit outside turns it "At Risk". -/
theorem classify_iff_C1 :
    (∀ systolic diastolic pulse temp spo2 : ℚ,
      (classify_patient_condition systolic diastolic pulse temp spo2 = "Normal" ↔
        (90 ≤ systolic ∧ systolic ≤ 120 ∧ 60 ≤ diastolic ∧ diastolic ≤ 80 ∧
         60 ≤ pulse ∧ pulse ≤ 100 ∧ (36.5 : ℚ) ≤ temp ∧ temp ≤ (37.5 : ℚ) ∧
         95 ≤ spo2 ∧ spo2 ≤ 100)) ∧
      (classify_patient_condition systolic diastolic pulse temp spo2 = "At Risk" ↔
        ¬(90 ≤ systolic ∧ systolic ≤ 120 ∧ 60 ≤ diastolic ∧ diastolic ≤ 80 ∧
          60 ≤ pulse ∧ pulse ≤ 100 ∧ (36.5 : ℚ) ≤ temp ∧ temp ≤ (37.5 : ℚ) ∧
          95 ≤ spo2 ∧ spo2 ≤ 100))) ∧
    classify_patient_condition 90 60 60 36.5 95 = "Normal" ∧
    classify_patient_condition 120 80 100 37.5 100 = "Normal" ∧
    classify_patient_condition 89 60 60 36.5 95 = "At Risk" ∧
    classify_patient_condition 90 60 60 36.5 94 = "At Risk" := by
  refine ⟨?_, by norm_num [classify_patient_condition], by norm_num [classify_patient_condition],
    by norm_num [classify_patient_condition], by norm_num [classify_patient_condition]⟩
  intro s d p t o
  unfold classify_patient_condition
  split_ifs with h
  · exact ⟨iff_of_true rfl h, iff_of_false (by decide) (not_not_intro h)⟩
  · exact ⟨iff_of_false (by decide) h, iff_of_true rfl h⟩

/-- C7: disease_recommendation is a pure total function of the label: the
"Normal" label always yields the fixed reassurance string, the "At Risk"
label always yields the fixed differential-diagnosis string naming
hypertension, heart disease, respiratory issues or other conditions, and
two calls with the same label agree. -/
theorem advise_fixed_C7 :
    disease_recommendation "Normal" =
      "No immediate diseases suggested based on normal readings." ∧
    disease_recommendation "At Risk" =
      "Possibilities include hypertension, heart disease, respiratory issues, or other conditions requiring further medical assessment." ∧
    ∀ l : String, disease_recommendation l = disease_recommendation l :=
  ⟨rfl, rfl, fun _ => rfl⟩

/-- C5: every produced report has exactly the three sheets "Patient Input
Data", "Time Series Data" and "Condition Distribution"; exactly three chart
images anchored at the pairwise distinct fixed cells G2, G20 and G40; one
text cell carrying the advice string; and the fixed download file name. -/
theorem report_shape_C5 (s d p t o : ℚ) (pd : List TimelinePoint)
    (adv : String) (fp : List ℚ) :
    (buildReport s d p t o pd adv fp).sheets.map Prod.fst =
      ["Patient Input Data", "Time Series Data", "Condition Distribution"] ∧
    (buildReport s d p t o pd adv fp).images.length = 3 ∧
    (buildReport s d p t o pd adv fp).images.map (fun im => im.1) =
      ["G2", "G20", "G40"] ∧
    (["G2", "G20", "G40"] : List String).Nodup ∧
    (buildReport s d p t o pd adv fp).textCells =
      [("B2", "Disease Suggestion: " ++ adv)] ∧
    (buildReport s d p t o pd adv fp).fileName =
      "patient_condition_report_with_charts.xlsx" :=
  ⟨rfl, rfl, rfl, by decide, rfl, rfl⟩

/-- C10: the ARIMA forecast is computed but never consumed - the report
content is identical for any two values of future_pred, both at the level
of buildReport and across the whole post-fit script tail. -/
theorem forecast_unused_C10 (s d p t o : ℚ) (pd : List TimelinePoint)
    (adv : String) (fp fp2 : List ℚ) (m m2 : ARIMAFit) :
    buildReport s d p t o pd adv fp = buildReport s d p t o pd adv fp2 ∧
    scriptTail s d p t o pd adv (Except.ok m) =
      scriptTail s d p t o pd adv (Except.ok m2) :=
  ⟨rfl, rfl⟩

/-- C2 (divergence witness): the source has no try/except around the ARIMA
fit of lines 98-100, so a fitting error propagates past the report block:
the script tail returns the error and no report is generated, contrary to
the claimed local recovery. -/
theorem fit_error_aborts_C2 :
    scriptTail 110 75 85 37 98 (plot_data "Normal" 0)
      (disease_recommendation "Normal") (Except.error "ConvergenceError") =
      Except.error "ConvergenceError" := rfl

/-- C8: when fitting succeeds, the forecasting step at horizon 24 returns
exactly 24 point forecasts. -/
theorem forecast_length_C8 (m : ARIMAFit) : (forecastFn m 24).length = 24 := by
  simp [forecastFn]

/-- C6: in the assembly trace, every image insertion into the "Condition
Distribution" sheet comes strictly after the table write that creates that
sheet, the writer close (flush) comes before the seek to position 0, and
the seek comes before the download handoff. -/
theorem assembly_order_C6 :
    (∀ i j : Fin assemblyTrace.length,
      assemblyTrace.get i = Ev.writeTable "Condition Distribution" →
      isInsertImageInto "Condition Distribution" (assemblyTrace.get j) = true →
      i < j) ∧
    (∀ i j : Fin assemblyTrace.length,
      assemblyTrace.get i = Ev.closeWriter → assemblyTrace.get j = Ev.seekStart →
      i < j) ∧
    (∀ i j : Fin assemblyTrace.length,
      assemblyTrace.get i = Ev.seekStart → assemblyTrace.get j = Ev.download →
      i < j) := by
  refine ⟨?_, ?_, ?_⟩ <;> decide

/-- Witness for C6: the table write at index 2 precedes the image insertion
at index 3, instantiating the ordering theorem at concrete indices. -/
theorem assembly_order_C6_witness :
    assemblyTrace.get ⟨2, by decide⟩ = Ev.writeTable "Condition Distribution" ∧
    isInsertImageInto "Condition Distribution" (assemblyTrace.get ⟨3, by decide⟩) = true ∧
    (⟨2, by decide⟩ : Fin assemblyTrace.length) < ⟨3, by decide⟩ :=
  ⟨by decide, by decide,
    assembly_order_C6.1 ⟨2, by decide⟩ ⟨3, by decide⟩ (by decide) (by decide)⟩

/-- C9: two pipeline runs with identical slider values and the same
calendar date agree on the label, the advice, the timeline and the binary
series - the timeline is seeded from the date alone (midnight origin), not
from the time of day of the invocation. -/
theorem pipeline_deterministic_C9 (s d p t o : ℚ) (n₁ n₂ : Instant)
    (h : n₁.date = n₂.date) :
    runPipeline s d p t o n₁ = runPipeline s d p t o n₂ := by
  unfold runPipeline
  rw [h]

/-- Witness for C9: two invocations on day 20000, one at 01:00 and one at
23:00, produce identical pipeline outputs. -/
theorem pipeline_deterministic_C9_witness :
    (⟨20000, 3600⟩ : Instant).date = (⟨20000, 82800⟩ : Instant).date ∧
    runPipeline 110 75 85 37 98 ⟨20000, 3600⟩ =
      runPipeline 110 75 85 37 98 ⟨20000, 82800⟩ :=
  ⟨rfl, pipeline_deterministic_C9 110 75 85 37 98 ⟨20000, 3600⟩ ⟨20000, 82800⟩ rfl⟩

/-- Helper: the synthesized timeline always has 24 points, whatever the
predicted label. -/
theorem plot_data_length (l : String) (t : Nat) : (plot_data l t).length = 24 := by
  by_cases hl : l = "Normal" <;>
    simp [plot_data, time_data, condition_data, hl]

/-- Helper: the binary column at index i is 1 or 0 according to the label
of the timeline row at index i. -/
theorem conditionBinary_getD (pd : List TimelinePoint) :
    ∀ i, i < pd.length →
      (conditionBinary pd).getD i 0 =
        if (pd.getD i ⟨0, ""⟩).condition = "At Risk" then 1 else 0 := by
  induction pd with
  | nil =>
      intro i hi
      simp at hi
  | cons p ps ih =>
      intro i hi
      cases i with
      | zero => rfl
      | succ j =>
          have hj : j < ps.length := by
            simp only [List.length_cons] at hi
            omega
          simp only [conditionBinary, List.map_cons, List.getD_cons_succ]
          simpa only [conditionBinary] using ih j hj

/-- C3: for every label and start hour t the timeline has exactly 24
points, the point at index i carries timestamp t + i (hourly spacing,
strictly increasing, starting at t), and the labels follow the 18/6 split:
first 18 equal to the current label, last 6 the opposite. -/
theorem timeline_split_C3 (l : String) (t : Nat) :
    (plot_data l t).length = 24 ∧
    (∀ i, i < 24 → ((plot_data l t).getD i ⟨0, ""⟩).time = t + i) ∧
    (∀ i, i < 18 → ((plot_data "Normal" t).getD i ⟨0, ""⟩).condition = "Normal") ∧
    (∀ i, 18 ≤ i → i < 24 →
      ((plot_data "Normal" t).getD i ⟨0, ""⟩).condition = "At Risk") ∧
    (∀ i, i < 18 → ((plot_data "At Risk" t).getD i ⟨0, ""⟩).condition = "At Risk") ∧
    (∀ i, 18 ≤ i → i < 24 →
      ((plot_data "At Risk" t).getD i ⟨0, ""⟩).condition = "Normal") := by
  refine ⟨plot_data_length l t, ?_, ?_, ?_, ?_, ?_⟩
  · intro i hi
    by_cases hl : l = "Normal"
    · subst hl
      interval_cases i <;> rfl
    · simp only [plot_data, condition_data, if_neg hl]
      interval_cases i <;> rfl
  · intro i hi
    interval_cases i <;> rfl
  · intro i h1 h2
    interval_cases i <;> rfl
  · intro i hi
    interval_cases i <;> rfl
  · intro i h1 h2
    interval_cases i <;> rfl

/-- Witness for C3: concrete instances at t = 0 - length 24, timestamp 5 at
index 5, label "Normal" at index 5 of the Normal timeline, and label
"Normal" at index 20 of the At Risk timeline. -/
theorem timeline_split_C3_witness :
    (plot_data "Normal" 0).length = 24 ∧
    ((plot_data "Normal" 0).getD 5 ⟨0, ""⟩).time = 0 + 5 ∧
    ((plot_data "Normal" 0).getD 5 ⟨0, ""⟩).condition = "Normal" ∧
    ((plot_data "At Risk" 0).getD 20 ⟨0, ""⟩).condition = "Normal" :=
  ⟨(timeline_split_C3 "Normal" 0).1,
   (timeline_split_C3 "Normal" 0).2.1 5 (by decide),
   (timeline_split_C3 "Normal" 0).2.2.1 5 (by decide),
   (timeline_split_C3 "Normal" 0).2.2.2.2.2 20 (by decide) (by decide)⟩

/-- C4: the binary risk series is aligned index-for-index with the
timeline: for every index below 24, the series entry is 1 exactly when the
timeline row at the same index is labelled "At Risk" (and 0 otherwise, the
entries being 0/1-valued by construction). -/
theorem binary_series_C4 (l : String) (t : Nat) (i : Nat) (hi : i < 24) :
    (conditionBinary (plot_data l t)).getD i 0 = 1 ↔
      ((plot_data l t).getD i ⟨0, ""⟩).condition = "At Risk" := by
  have hlen : i < (plot_data l t).length := by
    rw [plot_data_length]
    exact hi
  rw [conditionBinary_getD (plot_data l t) i hlen]
  split_ifs with h
  · exact iff_of_true rfl h
  · exact iff_of_false (by decide) h

/-- Witness for C4: at index 20 of the timeline for a "Normal" prediction,
the binary entry is 1 iff the row is "At Risk". -/
theorem binary_series_C4_witness :
    20 < 24 ∧
    ((conditionBinary (plot_data "Normal" 0)).getD 20 0 = 1 ↔
      ((plot_data "Normal" 0).getD 20 ⟨0, ""⟩).condition = "At Risk") :=
  ⟨by decide, binary_series_C4 "Normal" 0 20 (by decide)⟩
